import Mathlib

/-!
Verification development for the device remote-management backend
(`src/BackendContainer/src`): job executor tasks (`src/tasks/jobs.py`),
protocol clients (`src/protocols/snmp_client.py`, `webpa_client.py`,
`tr069_client.py`, `usp_client.py`) and the SSE progress notifier
(`src/api/routes/jobs.py`).
-/

/-- Job status values stored in the `jobs.status` column
(`src/tasks/jobs.py`, spec §3/§4.4). -/
inductive Status
  | queued
  | running
  | completed
  | failed
  | cancelled
deriving DecidableEq, Repr

/-- A status is terminal (spec §4.4: `completed`, `failed`, `cancelled`). -/
def isTerminal : Status → Bool
  | Status.completed => true
  | Status.failed => true
  | Status.cancelled => true
  | _ => false

/-- Typed protocol-client errors. Mirrors the exception hierarchy shared by all
four clients: a base client-error class (`SNMPClientError`, `WebPAClientError`,
`TR069ClientError`, `USPClientError`) with timeout and auth subclasses;
`other` stands for any non-client exception reaching the bare
`except Exception` clause of a task in `src/tasks/jobs.py`. -/
inductive ClientError
  | timeout (msg : String)
  | auth (msg : String)
  | client (msg : String)
  | other (msg : String)
deriving DecidableEq, Repr

/-- Modelled from the spec: the caller-facing layer (out of scope per §1/§3
Lifecycle) may flip a job's `status` to `cancelled` while the job is queued or
running; no such writer exists under `src/`. This type fixes the point of that
single external write relative to the Executor's steps in
`src/tasks/jobs.py`. -/
inductive CancelPoint
  | beforeStart
  | afterRunningMark
  | duringCall
  | never
deriving DecidableEq, Repr

/-- Observable log of one executor task run. `statusWrites` is every write to
the job row's `status` in order, the creation write (`'queued'`, from
`_insert_job` in `src/api/routes/jobs.py`) and the external cancellation write
included; `execWrites` is the subsequence written by the executor task itself.
`clientOps` counts protocol-client operations invoked (`client.get(...)` etc.),
`closeCalls` counts `client.close()` calls. -/
structure ExecLog (α : Type) where
  statusWrites : List Status
  execWrites : List Status
  clientCreated : Bool
  clientOps : Nat
  closeCalls : Nat
  finalStatus : Status
  errorKind : Option String
  errorMsg : Option String
  resultOk : Option α

/-- Error classification of the `except` clauses shared by every task in
`src/tasks/jobs.py` (e.g. `snmp_get` lines 155-182, `usp_get` lines 604-608):
the timeout subclass maps to `"timeout"`, the auth subclass to
`"authentication"`, the base client error to `"<protocol>_error"`, and any
other exception to `"unexpected"`, each preserving `str(e)`. -/
def classifyError (proto : String) : ClientError → String × String
  | ClientError.timeout m => ("timeout", m)
  | ClientError.auth m => ("authentication", m)
  | ClientError.client m => (proto ++ "_error", m)
  | ClientError.other m => ("unexpected", m)

/-- The executor task body `_run` shared by all GET/SET tasks in
`src/tasks/jobs.py` (`snmp_get` lines 102-184; `snmp_set`, `snmp_bulkwalk`,
`webpa_get`, `webpa_set`, `tr069_get`, `tr069_set`, `usp_get`, `usp_set` have
the identical structure), with the protocol call's outcome given as `outcome`
and the spec-modelled external cancellation write placed at `cancelAt`:

1. `_update_job_status(session, job_id, "running", progress=10)` — an
   unconditional `UPDATE jobs SET status='running'` (line 105); this
   overwrites a `cancelled` written while the job was still queued;
2. `_check_cancellation` (line 108) — re-reads `status`; it reads `cancelled`
   exactly when the external write happened after step 1; if so the executor
   writes `cancelled` and returns with no client built and no call made;
3. otherwise `create_*_client` (line 133), a second `running` write
   (progress 50, line 135), the single protocol operation (line 138);
4. on success `client.close()` (line 140) then a `completed` write
   (lines 142-153); on any raised error the matching `except` clause writes
   `failed` with the classified payload (lines 155-182) and `close` is not
   called. -/
def runJob (proto : String) (cancelAt : CancelPoint) (outcome : Except ClientError α) :
    ExecLog α :=
  let preWrites : List Status :=
    Status.queued ::
      (if cancelAt = CancelPoint.beforeStart then [Status.cancelled] else [])
  let extAfterMark : List Status :=
    if cancelAt = CancelPoint.afterRunningMark then [Status.cancelled] else []
  if cancelAt = CancelPoint.afterRunningMark then
    { statusWrites := preWrites ++ [Status.running] ++ extAfterMark ++ [Status.cancelled]
      execWrites := [Status.running, Status.cancelled]
      clientCreated := false
      clientOps := 0
      closeCalls := 0
      finalStatus := Status.cancelled
      errorKind := none
      errorMsg := none
      resultOk := none }
  else
    let extDuringCall : List Status :=
      if cancelAt = CancelPoint.duringCall then [Status.cancelled] else []
    match outcome with
    | Except.ok v =>
      { statusWrites :=
          preWrites ++ [Status.running, Status.running] ++ extDuringCall ++ [Status.completed]
        execWrites := [Status.running, Status.running, Status.completed]
        clientCreated := true
        clientOps := 1
        closeCalls := 1
        finalStatus := Status.completed
        errorKind := none
        errorMsg := none
        resultOk := some v }
    | Except.error e =>
      { statusWrites :=
          preWrites ++ [Status.running, Status.running] ++ extDuringCall ++ [Status.failed]
        execWrites := [Status.running, Status.running, Status.failed]
        clientCreated := true
        clientOps := 1
        closeCalls := 0
        finalStatus := Status.failed
        errorKind := some (classifyError proto e).1
        errorMsg := some (classifyError proto e).2
        resultOk := none }

/-- Once a terminal status appears in a write sequence, nothing may follow. -/
def noWriteAfterTerminal : List Status → Bool
  | [] => true
  | s :: rest => if isTerminal s then rest.isEmpty else noWriteAfterTerminal rest

/-- Edges of the spec §4.4 state machine:
`queued → running → completed / failed / cancelled`. -/
def edgeOk : Status → Status → Bool
  | Status.queued, Status.running => true
  | Status.running, Status.completed => true
  | Status.running, Status.failed => true
  | Status.running, Status.cancelled => true
  | _, _ => false

/-- Every adjacent pair of a write sequence is either a repeated write of the
same status or an edge of the §4.4 machine. -/
def transitionsOk : List Status → Bool
  | a :: b :: rest => (a = b || edgeOk a b) && transitionsOk (b :: rest)
  | _ => true

/-- C1 counterexample: an external `cancelled` written while the job is still
queued is followed by further status writes — the executor's unconditional
`running` mark (jobs.py line 105) overwrites it and the job then runs to
`completed`; so a terminal `cancelled` IS followed by a `running` write,
refuting the claim at this concrete schedule. -/
theorem snmp_get_overwrites_queued_cancelled :
    (runJob "snmp" CancelPoint.beforeStart (Except.ok "value")).statusWrites
        = [Status.queued, Status.cancelled, Status.running, Status.running, Status.completed]
      ∧ noWriteAfterTerminal
          (runJob "snmp" CancelPoint.beforeStart (Except.ok "value")).statusWrites = false := by
  constructor
  · rfl
  · rfl

/-- C1 amended: the executor's own status writes always follow the §4.4
machine — starting from the creation write `queued`, they never re-enter
`queued`, every transition is along a machine edge, and nothing follows the
executor's terminal write; only an externally written `cancelled` (before the
`running` mark, or while a call is in flight) is overwritten. -/
theorem executor_own_writes_follow_state_machine (proto : String) (α : Type)
    (cancelAt : CancelPoint) (outcome : Except ClientError α) :
    Status.queued ∉ (runJob proto cancelAt outcome).execWrites
      ∧ noWriteAfterTerminal
          (Status.queued :: (runJob proto cancelAt outcome).execWrites) = true
      ∧ transitionsOk
          (Status.queued :: (runJob proto cancelAt outcome).execWrites) = true := by
  cases cancelAt <;> cases outcome <;>
    simp [runJob, noWriteAfterTerminal, transitionsOk, isTerminal, edgeOk]

/-- C2 counterexample: a cancellation written while the job is queued — hence
before the executor's pre-call checkpoint — is not observed at the checkpoint:
the unconditional `running` write has already overwritten it, the protocol
client operation is invoked, and the job finishes `completed`, not
`cancelled`. -/
theorem precall_cancellation_while_queued_is_lost :
    (runJob "snmp" CancelPoint.beforeStart (Except.ok "value")).clientOps = 1
      ∧ (runJob "snmp" CancelPoint.beforeStart (Except.ok "value")).finalStatus
          = Status.completed
      ∧ ¬((runJob "snmp" CancelPoint.beforeStart (Except.ok "value")).clientOps = 0
            ∧ (runJob "snmp" CancelPoint.beforeStart (Except.ok "value")).finalStatus
                = Status.cancelled) := by
  refine ⟨rfl, rfl, ?_⟩
  intro h
  exact absurd h.1 (by decide)

/-- C2 amended: only a cancellation written after the executor's `running`
mark and before the checkpoint is observed there; in that case the executor
aborts before building a client, invokes no protocol client operation, and the
job's final status is `cancelled`. -/
theorem cancellation_after_running_mark_aborts_before_call (proto : String) (α : Type)
    (outcome : Except ClientError α) :
    (runJob proto CancelPoint.afterRunningMark outcome).clientOps = 0
      ∧ (runJob proto CancelPoint.afterRunningMark outcome).clientCreated = false
      ∧ (runJob proto CancelPoint.afterRunningMark outcome).finalStatus = Status.cancelled := by
  cases outcome <;> exact ⟨rfl, rfl, rfl⟩

/-- ACS bridge JSON response to a `GetParameterValues` command, as
discriminated by `TR069Client.get_parameter_values`
(`src/protocols/tr069_client.py` lines 116-146): a `"success"` status with a
parameter map, a `"pending"` status with an optional correlation `command_id`,
or anything else (a failure message). HTTP-level outcomes (timeouts, 401/403,
status errors) take other branches of the retry loop and are modelled by the
REST retry loop below, not here. -/
inductive AcsGetResponse
  | success (parameters : List (String × String)) (message : Option String)
  | pending (command_id : Option String) (message : Option String)
  | failure (message : Option String)
deriving DecidableEq, Repr

/-- The dictionary returned by `TR069Client.get_parameter_values`
(`device_id` is a constant passthrough and omitted; an absent `pending` key in
the success dictionary reads as false). -/
structure TR069GetResult where
  parameters : List (String × String)
  message : String
  pending : Bool
  command_id : Option String
deriving DecidableEq, Repr

/-- Response handling of `TR069Client.get_parameter_values`
(`tr069_client.py` lines 125-146): `status == "success"` returns the
parameters; `status == "pending"` RETURNS (does not raise) a result with
`pending: True`, message `"Command pending"` and the bridge's `command_id`;
anything else raises the base `TR069ClientError`. -/
def get_parameter_values : AcsGetResponse → Except ClientError TR069GetResult
  | AcsGetResponse.success ps msg =>
    Except.ok
      { parameters := ps
        message := msg.getD "Success"
        pending := false
        command_id := none }
  | AcsGetResponse.pending cid _ =>
    Except.ok
      { parameters := []
        message := "Command pending"
        pending := true
        command_id := cid }
  | AcsGetResponse.failure msg =>
    Except.error
      (ClientError.client
        ("TR-069 GetParameterValues failed: " ++ msg.getD "Unknown error"))

/-- C3: the client half of the claim holds — a `status=pending` bridge
response is surfaced as a non-exception result with `pending := true` and the
correlation `command_id` — but the `tr069_get` task (`jobs.py` lines 476-492)
treats every non-exception result as success and writes `status=completed`,
so the job DOES transition to `completed` on a pending response. -/
theorem tr069_pending_job_marked_completed :
    get_parameter_values (AcsGetResponse.pending (some "cmd-1") none)
        = Except.ok
            { parameters := []
              message := "Command pending"
              pending := true
              command_id := some "cmd-1" }
      ∧ (runJob "tr069" CancelPoint.never
            (get_parameter_values (AcsGetResponse.pending (some "cmd-1") none))).finalStatus
          = Status.completed
      ∧ (runJob "tr069" CancelPoint.never
            (get_parameter_values (AcsGetResponse.pending (some "cmd-1") none))).resultOk
          = some
              { parameters := []
                message := "Command pending"
                pending := true
                command_id := some "cmd-1" } := by
  exact ⟨rfl, rfl, rfl⟩

/-- C5: the executor calls `client.close()` only on the success path
(`jobs.py` line 140, before the `completed` write). On every error path the
raised exception jumps straight to the `except` clause and `close` is never
invoked, even though a client had been created — so resources are NOT released
regardless of outcome. (On the cancellation path no client exists yet.) -/
theorem executor_skips_close_on_error_path :
    (runJob "snmp" CancelPoint.never
        (Except.error (ClientError.timeout "SNMP GET timeout") : Except ClientError String)).clientCreated
        = true
      ∧ (runJob "snmp" CancelPoint.never
            (Except.error (ClientError.timeout "SNMP GET timeout") : Except ClientError String)).closeCalls
          = 0
      ∧ (runJob "snmp" CancelPoint.never
            (Except.ok "value" : Except ClientError String)).closeCalls = 1
      ∧ (runJob "snmp" CancelPoint.afterRunningMark
            (Except.ok "value" : Except ClientError String)).clientCreated = false := by
  exact ⟨rfl, rfl, rfl, rfl⟩

/-- C6: every client-raised error is caught at the task boundary and written
as `status=failed` with a structured error/message payload mapping the
timeout subclass to `"timeout"`, the auth subclass to `"authentication"`, the
base client error to `"<protocol>_error"` and any other exception to
`"unexpected"`, preserving the original message; the executor model is a total
function whose final status on every error is the normal terminal `failed` —
no exception escapes the job boundary. -/
theorem executor_error_classification (p m : String) :
    ((runJob p CancelPoint.never
          (Except.error (ClientError.timeout m) : Except ClientError String)).finalStatus
            = Status.failed
        ∧ (runJob p CancelPoint.never
              (Except.error (ClientError.timeout m) : Except ClientError String)).errorKind
            = some "timeout"
        ∧ (runJob p CancelPoint.never
              (Except.error (ClientError.timeout m) : Except ClientError String)).errorMsg
            = some m)
      ∧ ((runJob p CancelPoint.never
            (Except.error (ClientError.auth m) : Except ClientError String)).errorKind
          = some "authentication")
      ∧ ((runJob p CancelPoint.never
            (Except.error (ClientError.client m) : Except ClientError String)).errorKind
          = some (p ++ "_error"))
      ∧ ((runJob p CancelPoint.never
            (Except.error (ClientError.other m) : Except ClientError String)).errorKind
          = some "unexpected")
      ∧ (∀ e : ClientError,
          (runJob p CancelPoint.never (Except.error e : Except ClientError String)).finalStatus
            = Status.failed
          ∧ (runJob p CancelPoint.never (Except.error e : Except ClientError String)).errorMsg
            = some (classifyError p e).2) := by
  refine ⟨⟨rfl, rfl, rfl⟩, rfl, rfl, rfl, ?_⟩
  intro e
  cases e <;> exact ⟨rfl, rfl⟩

/-- Outcome of one HTTP attempt inside a REST-backed client's retry loop
(`WebPAClient.get`, `webpa_client.py` lines 109-152; the same loop shape
appears in `WebPAClient.set`, `USPClient._http_get` / `_http_set` / `operate`
and the `TR069Client` command methods, differing only in backoff delay units,
which do not affect invocation counts). -/
inductive Attempt (α : Type)
  | ok (v : α)
  | authFail (code : Nat)
  | httpError (code : Nat)
  | timeout (msg : String)
  | raised (msg : String)
deriving DecidableEq, Repr

/-- The body of `for attempt in range(self.config.retries)` by
remaining-iteration fuel (`fuel = 0` inside an iteration marks the last one,
`attempt == self.config.retries - 1`). Each iteration makes exactly one
underlying invocation. Success returns; a 401/403 raises the auth error
unretried; an HTTP status error raises the base client error unretried; a
timeout retries until the last iteration, where it is re-raised as the timeout
error; any other exception likewise retries and is re-raised wrapped in the
base client error. The fuel-exhausted case is the fall-through raise after the
loop (`webpa_client.py` line 152), reachable only when `retries = 0`. Returns
the number of underlying invocations together with the surfaced outcome. -/
def restRetryAux (attempts : Nat → Attempt α) (idx : Nat) : Nat → Nat × Except ClientError α
  | 0 => (0, Except.error (ClientError.client "failed after retries"))
  | fuel + 1 =>
    match attempts idx with
    | Attempt.ok v => (1, Except.ok v)
    | Attempt.authFail c =>
      (1, Except.error (ClientError.auth ("authentication failed: " ++ toString c)))
    | Attempt.httpError c =>
      (1, Except.error (ClientError.client ("HTTP " ++ toString c)))
    | Attempt.timeout m =>
      if fuel = 0 then (1, Except.error (ClientError.timeout m))
      else
        let r := restRetryAux attempts (idx + 1) fuel
        (r.1 + 1, r.2)
    | Attempt.raised m =>
      if fuel = 0 then (1, Except.error (ClientError.client m))
      else
        let r := restRetryAux attempts (idx + 1) fuel
        (r.1 + 1, r.2)

/-- A full REST-backed call under the configured retry count: the loop runs at
most `retries` iterations starting from attempt index 0. -/
def restCall (attempts : Nat → Attempt α) (retries : Nat) : Nat × Except ClientError α :=
  restRetryAux attempts 0 retries

/-- With every attempt timing out, each of the `fuel` remaining iterations
makes one invocation and the last re-raises the timeout error. -/
lemma restRetryAux_const_timeout (m : String) (idx fuel : Nat) (h : 1 ≤ fuel) :
    restRetryAux (fun _ => Attempt.timeout (α := String) m) idx fuel
      = (fuel, Except.error (ClientError.timeout m)) := by
  induction fuel generalizing idx with
  | zero => omega
  | succ f ih =>
    by_cases hf : f = 0
    · subst hf
      rfl
    · have hf1 : 1 ≤ f := Nat.one_le_iff_ne_zero.mpr hf
      simp only [restRetryAux, ih (idx + 1) hf1, hf]
      simp

/-- C4 counterexample: with `retries = 3` and every attempt timing out,
exactly 3 underlying invocations are made — `retries`, not `retries + 1` —
before the last timeout is surfaced as the timeout error. -/
theorem rest_timeout_makes_retries_not_retries_succ_invocations :
    restCall (fun _ => Attempt.timeout (α := String) "read timed out") 3
        = (3, Except.error (ClientError.timeout "read timed out"))
      ∧ (restCall (fun _ => Attempt.timeout (α := String) "read timed out") 3).1 ≠ 3 + 1 := by
  constructor
  · rfl
  · intro h
    simp [restCall, restRetryAux] at h

/-- C4 amended: for every REST-backed call with retry count `retries ≥ 1`
whose attempts all time out, exactly `retries` underlying invocations are made
and the final timeout is surfaced as the client's timeout error; with
`retries = 0` the loop body never runs, no invocation is made, and the
fall-through base client error is raised instead. -/
theorem rest_all_timeout_invocation_count (retries : Nat) (m : String) (h : 1 ≤ retries) :
    restCall (fun _ => Attempt.timeout (α := String) m) retries
        = (retries, Except.error (ClientError.timeout m))
      ∧ restCall (fun _ => Attempt.timeout (α := String) m) 0
        = (0, Except.error (ClientError.client "failed after retries")) := by
  exact ⟨restRetryAux_const_timeout m 0 retries h, rfl⟩

/-- Witness for the amended C4 theorem at `retries = 3`. -/
theorem rest_all_timeout_invocation_count_witness :
    1 ≤ 3
      ∧ (restCall (fun _ => Attempt.timeout (α := String) "t") 3
            = (3, Except.error (ClientError.timeout "t"))
          ∧ restCall (fun _ => Attempt.timeout (α := String) "t") 0
            = (0, Except.error (ClientError.client "failed after retries"))) :=
  ⟨by decide, rest_all_timeout_invocation_count 3 "t" (by decide)⟩

/-- USP transport modes (`USPTransportMode`, `usp_client.py` lines 17-21). -/
inductive USPTransportMode
  | http
  | mqtt
  | websocket
deriving DecidableEq, Repr

/-- `USPClient.get` (`usp_client.py` lines 108-131): dispatch on the
configured transport mode. `http` runs the REST retry loop (`_http_get`,
lines 133-182, the `restCall` shape); `mqtt` and `websocket` immediately raise
the BASE `USPClientError` (`_mqtt_get` / `_ws_get`, lines 184-190) without
touching the lazily-built HTTP client, so zero network invocations are made.
No dedicated unsupported-operation error class exists in the code. -/
def uspGet (mode : USPTransportMode) (attempts : Nat → Attempt α) (retries : Nat) :
    Nat × Except ClientError α :=
  match mode with
  | USPTransportMode.http => restCall attempts retries
  | USPTransportMode.mqtt =>
    (0, Except.error (ClientError.client "MQTT transport not yet implemented. Use HTTP mode."))
  | USPTransportMode.websocket =>
    (0, Except.error (ClientError.client "WebSocket transport not yet implemented. Use HTTP mode."))

/-- Modelled from the spec: the §7 error taxonomy — `TimeoutError`,
`AuthError`, `ProtocolError`, `UnsupportedOperation`, `UnexpectedError`. -/
inductive SpecErrorKind
  | timeoutError
  | authError
  | protocolError
  | unsupportedOperation
  | unexpectedError
deriving DecidableEq, Repr

/-- Modelled from the spec: §4.1/§7 name the code's typed client errors in the
taxonomy — the timeout subclasses are `TimeoutError`, the auth subclasses
`AuthError`, the base client-error classes `ProtocolError`, and unclassified
exceptions `UnexpectedError`; `UnsupportedOperation` is reserved for a
distinct capability-gap error, to which no error class of the code
corresponds. -/
def specErrorKind : ClientError → SpecErrorKind
  | ClientError.timeout _ => SpecErrorKind.timeoutError
  | ClientError.auth _ => SpecErrorKind.authError
  | ClientError.client _ => SpecErrorKind.protocolError
  | ClientError.other _ => SpecErrorKind.unexpectedError

/-- C8 counterexample: a USP Get in `mqtt` mode raises the base
`USPClientError` — under the spec taxonomy a `ProtocolError`, not
`UnsupportedOperation` — and the job records the generic `"usp_error"` kind,
so the call does not fail with `UnsupportedOperation`. -/
theorem usp_mqtt_error_is_protocol_error_not_unsupported :
    (uspGet USPTransportMode.mqtt (fun _ => Attempt.timeout (α := String) "t") 3).2
        = Except.error (ClientError.client "MQTT transport not yet implemented. Use HTTP mode.")
      ∧ specErrorKind (ClientError.client "MQTT transport not yet implemented. Use HTTP mode.")
          ≠ SpecErrorKind.unsupportedOperation
      ∧ (runJob "usp" CancelPoint.never
            (uspGet USPTransportMode.mqtt (fun _ => Attempt.timeout (α := String) "t") 3).2).errorKind
          = some "usp_error" := by
  exact ⟨rfl, by decide, rfl⟩

/-- C8 amended: a USP Get in `mqtt` (or `websocket`) mode fails fast before
any network invocation — zero underlying calls, the base `USPClientError`
carrying the not-yet-implemented message — and the corresponding job ends
`failed` with error kind `"usp_error"`; the code has no distinct
`UnsupportedOperation` error type. -/
theorem usp_mqtt_fails_fast_zero_network_calls (α : Type) (attempts : Nat → Attempt α)
    (retries : Nat) :
    uspGet USPTransportMode.mqtt attempts retries
        = (0, Except.error (ClientError.client "MQTT transport not yet implemented. Use HTTP mode."))
      ∧ uspGet USPTransportMode.websocket attempts retries
        = (0, Except.error (ClientError.client "WebSocket transport not yet implemented. Use HTTP mode."))
      ∧ (runJob "usp" CancelPoint.never
            (Except.error (ClientError.client "MQTT transport not yet implemented. Use HTTP mode.")
              : Except ClientError α)).finalStatus = Status.failed
      ∧ (runJob "usp" CancelPoint.never
            (Except.error (ClientError.client "MQTT transport not yet implemented. Use HTTP mode.")
              : Except ClientError α)).errorKind = some "usp_error"
      ∧ (runJob "usp" CancelPoint.never
            (Except.error (ClientError.client "MQTT transport not yet implemented. Use HTTP mode.")
              : Except ClientError α)).clientOps
          + (uspGet USPTransportMode.mqtt attempts retries).1 * 0 = 1 := by
  exact ⟨rfl, rfl, rfl, rfl, rfl⟩

/-- Events emitted by the SSE job-progress stream
(`_sse_event_stream`, `src/api/routes/jobs.py` lines 125-154). The payload
dictionary also carries the job-result JSON, which the stream passes through
from the store unchanged; only the status matters to the event logic and the
result is omitted here. The single `error` event of the unauthorized path
(line 130) is outside the subscribed-job claims and not modelled. -/
inductive SseEvent
  | update (s : Status)
  | done (s : Status)
deriving DecidableEq, Repr

/-- Recognizer for `done` events. -/
def isDoneEvent : SseEvent → Bool
  | SseEvent.done _ => true
  | _ => false

/-- The statuses carried by the `update` events of an event list, in order. -/
def updatePayloads (evs : List SseEvent) : List Status :=
  evs.filterMap fun e =>
    match e with
    | SseEvent.update s => some s
    | _ => none

/-- The status test of line 151: `status_val in ("completed", "failed")` —
note `cancelled` is NOT in this tuple. -/
def sseDoneStatus (s : Status) : Bool :=
  s = Status.completed || s = Status.failed

/-- Loop body of `_sse_event_stream` (`src/api/routes/jobs.py` lines 133-154)
over the successive polled statuses, with `last` the `last_status` variable
(`None` before the first update). Each polled row yields an `update` iff its
status differs from `last` (lines 148-150), then a `done` — after which the
loop breaks — iff the status is `completed` or `failed` (lines 151-153).
In the code `last_status` is reassigned only inside the changed branch, which
leaves it equal to the polled status either way, so the recursion passes
`some s`. -/
def sseLoop (last : Option Status) : List Status → List SseEvent
  | [] => []
  | s :: rest =>
    (if some s ≠ last then [SseEvent.update s] else [])
      ++ (if sseDoneStatus s then [SseEvent.done s] else sseLoop (some s) rest)

/-- `_sse_event_stream`: at most 120 polls (`for _ in range(120)`,
≈60 s at 500 ms); if no `completed`/`failed` status is seen within the budget
the stream simply ends. -/
def sse_event_stream (polls : List Status) : List SseEvent :=
  sseLoop none (polls.take 120)

/-- The update events contribute no `done` event. -/
lemma filter_isDoneEvent_update (c : Prop) [Decidable c] (s : Status) :
    (if c then [SseEvent.update s] else []).filter isDoneEvent = [] := by
  split_ifs <;> simp [isDoneEvent, List.filter]

/-- At most one `done` event is emitted, whatever the polled statuses. -/
lemma sseLoop_done_count_le_one (last : Option Status) (l : List Status) :
    ((sseLoop last l).filter isDoneEvent).length ≤ 1 := by
  induction l generalizing last with
  | nil => simp [sseLoop]
  | cons s rest ih =>
    simp only [sseLoop, List.filter_append, filter_isDoneEvent_update, List.nil_append]
    by_cases h : sseDoneStatus s = true
    · simp [h, List.filter, isDoneEvent]
    · simp only [h, if_false]
      exact ih (some s)

/-- If no polled status is `completed` or `failed`, no `done` event is
emitted. -/
lemma sseLoop_no_done (last : Option Status) (l : List Status)
    (h : ∀ s ∈ l, sseDoneStatus s = false) :
    (sseLoop last l).filter isDoneEvent = [] := by
  induction l generalizing last with
  | nil => simp [sseLoop]
  | cons s rest ih =>
    simp only [sseLoop, List.filter_append, filter_isDoneEvent_update, List.nil_append]
    rw [h s (by simp)]
    simp only [Bool.false_eq_true, if_false]
    exact ih (some s) fun x hx => h x (by simp [hx])

/-- When the polled statuses first reach `completed`/`failed` at `t`, the
emitted `done` events are exactly `[done t]` and the stream's final event is
that `done`. -/
lemma sseLoop_done_at_first_terminal (pre : List Status) (t : Status) (post : List Status)
    (hpre : ∀ s ∈ pre, sseDoneStatus s = false) (ht : sseDoneStatus t = true) :
    ∀ last : Option Status,
      (sseLoop last (pre ++ t :: post)).filter isDoneEvent = [SseEvent.done t]
        ∧ (sseLoop last (pre ++ t :: post)).getLast? = some (SseEvent.done t) := by
  induction pre with
  | nil =>
    intro last
    simp only [List.nil_append, sseLoop, ht, if_true]
    constructor
    · simp [List.filter_append, filter_isDoneEvent_update, List.filter, isDoneEvent]
    · rw [List.getLast?_append_cons]
      rfl
  | cons s pre ih =>
    intro last
    have hs : sseDoneStatus s = false := hpre s (by simp)
    have hpre' : ∀ x ∈ pre, sseDoneStatus x = false := fun x hx => hpre x (by simp [hx])
    have ihx := ih hpre' (some s)
    simp only [List.cons_append, sseLoop, hs, Bool.false_eq_true, if_false, List.append_eq]
    constructor
    · rw [List.filter_append, filter_isDoneEvent_update, List.nil_append]
      exact ihx.1
    · have hne : sseLoop (some s) (pre ++ t :: post) ≠ [] := by
        intro hnil
        have := ihx.1
        rw [hnil] at this
        simp [List.filter] at this
      rw [List.getLast?_append_of_ne_nil _ hne]
      exact ihx.2

/-- `updatePayloads` distributes over append. -/
lemma updatePayloads_append (a b : List SseEvent) :
    updatePayloads (a ++ b) = updatePayloads a ++ updatePayloads b :=
  List.filterMap_append a b _

/-- Payloads of a conditional single update event. -/
lemma updatePayloads_ite_update (c : Prop) [Decidable c] (s : Status) :
    updatePayloads (if c then [SseEvent.update s] else []) = if c then [s] else [] := by
  split_ifs <;> simp [updatePayloads]

/-- Payloads of a conditional done event versus a continuation. -/
lemma updatePayloads_ite_done (c : Prop) [Decidable c] (s : Status) (l : List SseEvent) :
    updatePayloads (if c then [SseEvent.done s] else l)
      = if c then [] else updatePayloads l := by
  split_ifs <;> simp [updatePayloads]

/-- Consecutive `update` payloads always differ: an `update` is emitted only
when the observed status differs from the previously emitted one. The second
conjunct tracks the `last_status` variable through the recursion. -/
lemma sseLoop_updates_chain (l : List Status) :
    ∀ last : Option Status,
      List.Chain' (fun a b => a ≠ b) (updatePayloads (sseLoop last l))
        ∧ ∀ y ∈ (updatePayloads (sseLoop last l)).head?, some y ≠ last := by
  induction l with
  | nil =>
    intro last
    exact ⟨by simp [sseLoop, updatePayloads], by simp [sseLoop, updatePayloads]⟩
  | cons s rest ih =>
    intro last
    have hsplit : updatePayloads (sseLoop last (s :: rest))
        = (if some s ≠ last then [s] else [])
            ++ (if sseDoneStatus s = true then []
                else updatePayloads (sseLoop (some s) rest)) := by
      simp only [sseLoop]
      rw [updatePayloads_append, updatePayloads_ite_update, updatePayloads_ite_done]
    rw [hsplit]
    by_cases hterm : sseDoneStatus s = true
    · rw [if_pos hterm]
      by_cases hc : some s ≠ last
      · rw [if_pos hc]
        constructor
        · simp
        · intro y hy
          simp at hy
          rw [← hy]
          exact hc
      · rw [if_neg hc]
        constructor
        · simp
        · intro y hy
          simp at hy
    · rw [if_neg hterm]
      have ihx := ih (some s)
      by_cases hc : some s ≠ last
      · rw [if_pos hc]
        constructor
        · simp only [List.singleton_append]
          refine List.chain'_cons'.2 ⟨?_, ihx.1⟩
          intro y hy hsy
          exact ihx.2 y hy (by rw [hsy])
        · intro y hy
          simp only [List.singleton_append, List.head?_cons] at hy
          simp at hy
          rw [← hy]
          exact hc
      · rw [if_neg hc]
        have hlast : some s = last := not_ne_iff.mp hc
        simp only [List.nil_append]
        constructor
        · exact ihx.1
        · intro y hy
          rw [← hlast]
          exact ihx.2 y hy

/-- C7 counterexample: a job that is cancelled while being observed — polled
statuses `running` then `cancelled` — produces two `update` events and NO
`done` event: the stream's terminal test (`jobs.py` line 151) checks only
`completed` and `failed`, so `cancelled` is not treated as terminal and no
final `done` is ever emitted for it. -/
theorem sse_no_done_event_for_cancelled :
    sse_event_stream [Status.running, Status.cancelled]
        = [SseEvent.update Status.running, SseEvent.update Status.cancelled]
      ∧ (sse_event_stream [Status.running, Status.cancelled]).filter isDoneEvent = [] := by
  exact ⟨rfl, rfl⟩

/-- C7 amended: the notifier emits an `update` whenever the observed status
differs from the previously emitted one (consecutive update payloads are
always distinct); it emits at most one `done` event, exactly one — carrying
the first `completed`/`failed` status observed, as the stream's final event —
when such a status occurs within the 120-poll budget; and it emits no `done`
at all when no polled status is `completed` or `failed`, in particular when
the job ends `cancelled`. -/
theorem sse_done_exactly_once_for_completed_or_failed :
    (∀ polls : List Status, ((sse_event_stream polls).filter isDoneEvent).length ≤ 1)
      ∧ (∀ polls : List Status,
          (∀ s ∈ polls, s ≠ Status.completed ∧ s ≠ Status.failed) →
          (sse_event_stream polls).filter isDoneEvent = [])
      ∧ (∀ pre post : List Status, ∀ t : Status,
          (∀ s ∈ pre, s ≠ Status.completed ∧ s ≠ Status.failed) →
          (t = Status.completed ∨ t = Status.failed) →
          pre.length < 120 →
          (sse_event_stream (pre ++ t :: post)).filter isDoneEvent = [SseEvent.done t]
            ∧ (sse_event_stream (pre ++ t :: post)).getLast? = some (SseEvent.done t))
      ∧ (∀ polls : List Status,
          List.Chain' (fun a b => a ≠ b) (updatePayloads (sse_event_stream polls))) := by
  refine ⟨?_, ?_, ?_, ?_⟩
  · intro polls
    exact sseLoop_done_count_le_one none (polls.take 120)
  · intro polls h
    refine sseLoop_no_done none (polls.take 120) ?_
    intro s hs
    have hx := h s (List.take_subset _ _ hs)
    simp [sseDoneStatus, hx.1, hx.2]
  · intro pre post t hpre ht hlen
    obtain ⟨k, hk⟩ : ∃ k, 120 - pre.length = k + 1 := ⟨119 - pre.length, by omega⟩
    have htake : (pre ++ t :: post).take 120 = pre ++ t :: post.take k := by
      rw [List.take_append_eq_append_take, List.take_of_length_le (by omega), hk,
        List.take_succ_cons]
    have hpre' : ∀ s ∈ pre, sseDoneStatus s = false := by
      intro s hs
      have hx := hpre s hs
      simp [sseDoneStatus, hx.1, hx.2]
    have ht' : sseDoneStatus t = true := by
      rcases ht with h | h <;> simp [sseDoneStatus, h]
    have := sseLoop_done_at_first_terminal pre t (post.take k) hpre' ht' none
    constructor
    · rw [sse_event_stream, htake]
      exact this.1
    · rw [sse_event_stream, htake]
      exact this.2
  · intro polls
    exact (sseLoop_updates_chain (polls.take 120) none).1

/-- Witness for the amended C7 theorem: the no-`done`-for-`cancelled` part at
the polled trace `[running, cancelled]` and the exactly-one-`done` part at the
trace `[running, completed, running]`. -/
theorem sse_done_exactly_once_witness :
    ((sse_event_stream [Status.running, Status.cancelled]).filter isDoneEvent = [])
      ∧ (sse_event_stream ([Status.running] ++ Status.completed :: [Status.running])).filter
            isDoneEvent
          = [SseEvent.done Status.completed] :=
  ⟨sse_done_exactly_once_for_completed_or_failed.2.1 [Status.running, Status.cancelled]
      (by decide),
    (sse_done_exactly_once_for_completed_or_failed.2.2.1 [Status.running] [Status.running]
        Status.completed (by decide) (Or.inl rfl) (by decide)).1⟩

/-- The GETBULK iteration of `SNMPClient.bulk_walk`
(`src/protocols/snmp_client.py` lines 277-314): `batches` are the successive
GETBULK response var-bind lists (the list ends where the walk ends naturally,
each batch at most `max_repetitions` long); the inner `for var_bind in
var_binds` loop appends the WHOLE batch to `results` before the
`len(results) >= max_rows` check decides whether to stop. Error responses
abort by exception and do not contribute rows. -/
def bulkWalkLoop (maxRows : Nat) : List (List α) → List α → List α
  | [], results => results
  | batch :: rest, results =>
    if maxRows ≤ (results ++ batch).length then results ++ batch
    else bulkWalkLoop maxRows rest (results ++ batch)

/-- `SNMPClient.bulk_walk(oid, max_rows)`: the walk starts with an empty
result list. -/
def bulk_walk (batches : List (List α)) (maxRows : Nat) : List α :=
  bulkWalkLoop maxRows batches []

/-- The loop's result is always the accumulator followed by some number of
whole leading batches — never a partial batch. -/
lemma bulkWalkLoop_take_flatten (maxRows : Nat) (batches : List (List α)) :
    ∀ acc : List α, ∃ k, bulkWalkLoop maxRows batches acc = acc ++ (batches.take k).flatten := by
  induction batches with
  | nil =>
    intro acc
    exact ⟨0, by simp [bulkWalkLoop]⟩
  | cons b rest ih =>
    intro acc
    by_cases h : maxRows ≤ (acc ++ b).length
    · refine ⟨1, ?_⟩
      simp only [bulkWalkLoop, if_pos h, List.take_succ_cons, List.take_zero,
        List.flatten_cons, List.flatten_nil, List.append_nil]
    · obtain ⟨k, hk⟩ := ih (acc ++ b)
      refine ⟨k + 1, ?_⟩
      simp only [bulkWalkLoop, if_neg h, hk, List.take_succ_cons, List.flatten_cons,
        List.append_assoc]

/-- Size bound: entering the loop strictly below `maxRows`, the final length
never exceeds `maxRows - 1` plus one whole batch. -/
lemma bulkWalkLoop_length_bound (maxRows R : Nat) (batches : List (List α)) :
    ∀ acc : List α, (∀ b ∈ batches, b.length ≤ R) → acc.length < maxRows →
      (bulkWalkLoop maxRows batches acc).length ≤ maxRows - 1 + R := by
  induction batches with
  | nil =>
    intro acc _ hacc
    simp only [bulkWalkLoop]
    omega
  | cons b rest ih =>
    intro acc hb hacc
    have hbR : b.length ≤ R := hb b (by simp)
    have hlen : (acc ++ b).length = acc.length + b.length := List.length_append acc b
    by_cases h : maxRows ≤ (acc ++ b).length
    · simp only [bulkWalkLoop, if_pos h]
      omega
    · simp only [bulkWalkLoop, if_neg h]
      exact ih (acc ++ b) (fun x hx => hb x (by simp [hx])) (by omega)

/-- C9: the walk result is always a concatenation of whole batches (never a
mid-batch truncation to exactly `max_rows`); with every batch at most
`max_repetitions = R` rows it holds at most `max_rows - 1 + R` rows; and it
may genuinely exceed `max_rows` — the concrete walk of one 3-row batch with
`max_rows = 2` returns all 3 rows. -/
theorem bulk_walk_whole_batches_and_bound (R maxRows : Nat) (batches : List (List String))
    (hb : ∀ b ∈ batches, b.length ≤ R) (h1 : 1 ≤ maxRows) :
    (∃ k, bulk_walk batches maxRows = (batches.take k).flatten)
      ∧ (bulk_walk batches maxRows).length ≤ maxRows - 1 + R
      ∧ bulk_walk [["a", "b", "c"]] 2 = ["a", "b", "c"]
      ∧ 2 < (bulk_walk [["a", "b", "c"]] 2).length := by
  refine ⟨?_, ?_, rfl, by decide⟩
  · obtain ⟨k, hk⟩ := bulkWalkLoop_take_flatten maxRows batches []
    exact ⟨k, by simpa using hk⟩
  · exact bulkWalkLoop_length_bound maxRows R batches [] hb (by simpa using h1)

/-- Witness for the C9 theorem at two 2-row-capped batches and
`max_rows = 3`. -/
theorem bulk_walk_whole_batches_and_bound_witness :
    (∀ b ∈ [["x", "y"], ["z"]], b.length ≤ 2)
      ∧ 1 ≤ 3
      ∧ ((∃ k, bulk_walk [["x", "y"], ["z"]] 3 = ([["x", "y"], ["z"]].take k).flatten)
          ∧ (bulk_walk [["x", "y"], ["z"]] 3).length ≤ 3 - 1 + 2
          ∧ bulk_walk [["a", "b", "c"]] 2 = ["a", "b", "c"]
          ∧ 2 < (bulk_walk [["a", "b", "c"]] 2).length) :=
  ⟨by decide, by decide,
    bulk_walk_whole_batches_and_bound 2 3 [["x", "y"], ["z"]] (by decide) (by decide)⟩

/-- SNMPv3 USM auth protocol constants selected by `SNMPClient._get_auth_data`
(`usmNoAuthProtocol` / `usmHMACMD5AuthProtocol` / `usmHMACSHAAuthProtocol`). -/
inductive AuthProtocolChoice
  | noAuth
  | md5
  | sha
deriving DecidableEq, Repr

/-- SNMPv3 USM privacy protocol constants selected by
`SNMPClient._get_auth_data` (`usmNoPrivProtocol` / `usmDESPrivProtocol` /
`usmAesCfb128Protocol`). -/
inductive PrivProtocolChoice
  | noPriv
  | des
  | aes
deriving DecidableEq, Repr

/-- The `SNMPConfig` fields consumed by `_get_auth_data`
(`snmp_client.py` lines 32-52); passwords are passed through opaquely and
omitted. -/
structure SNMPConfig where
  version : String
  community : String
  username : Option String
  auth_protocol : Option String
  priv_protocol : Option String
deriving DecidableEq, Repr

/-- The value returned by `_get_auth_data`: a v2c `CommunityData` or a v3
`UsmUserData` with the selected USM protocols. -/
inductive AuthData
  | communityData (community : String)
  | usmUserData (user : String) (auth : AuthProtocolChoice) (priv : PrivProtocolChoice)
deriving DecidableEq, Repr

/-- Python `str.upper()` as applied to the configured protocol names
(ASCII uppercasing, character by character). -/
def pyUpper (s : String) : String :=
  String.mk (s.data.map Char.toUpper)

/-- Python truthiness of an optional string: `None` and `""` are falsy
(the `if self.config.auth_protocol:` guards). -/
def strTruthy : Option String → Bool
  | none => false
  | some s => !s.isEmpty

/-- Auth protocol selection of `_get_auth_data` (`snmp_client.py` lines
94-101): `auth_proto` starts as `usmNoAuthProtocol`; only a truthy
`auth_protocol` whose upper-casing equals `"MD5"` or `"SHA"` changes it —
anything else silently keeps the no-auth fallback. -/
def pickAuthProto : Option String → AuthProtocolChoice
  | none => AuthProtocolChoice.noAuth
  | some s =>
    if s.isEmpty then AuthProtocolChoice.noAuth
    else if pyUpper s = "MD5" then AuthProtocolChoice.md5
    else if pyUpper s = "SHA" then AuthProtocolChoice.sha
    else AuthProtocolChoice.noAuth

/-- Privacy protocol selection of `_get_auth_data` (`snmp_client.py` lines
95-107): only a truthy `priv_protocol` upper-casing to `"DES"` or `"AES"`
leaves the no-priv fallback. -/
def pickPrivProto : Option String → PrivProtocolChoice
  | none => PrivProtocolChoice.noPriv
  | some s =>
    if s.isEmpty then PrivProtocolChoice.noPriv
    else if pyUpper s = "DES" then PrivProtocolChoice.des
    else if pyUpper s = "AES" then PrivProtocolChoice.aes
    else PrivProtocolChoice.noPriv

/-- `self.config.username or "user"` (`snmp_client.py` line 110). -/
def usmUsername : Option String → String
  | none => "user"
  | some s => if s.isEmpty then "user" else s

/-- `SNMPClient._get_auth_data` (`snmp_client.py` lines 88-117): v2c yields
`CommunityData`; v3 always succeeds with a `UsmUserData` built from the
selections above; any other version raises the base client error. -/
def get_auth_data (cfg : SNMPConfig) : Except String AuthData :=
  if cfg.version = "2c" then
    Except.ok (AuthData.communityData cfg.community)
  else if cfg.version = "3" then
    Except.ok
      (AuthData.usmUserData (usmUsername cfg.username) (pickAuthProto cfg.auth_protocol)
        (pickPrivProto cfg.priv_protocol))
  else
    Except.error ("Unsupported SNMP version: " ++ cfg.version)

/-- A present but unrecognized auth protocol name — upper-casing to neither
`"MD5"` nor `"SHA"` — leaves the no-auth fallback. -/
lemma pickAuthProto_unrecognized (a : String) (h1 : pyUpper a ≠ "MD5")
    (h2 : pyUpper a ≠ "SHA") :
    pickAuthProto (some a) = AuthProtocolChoice.noAuth := by
  by_cases he : a.isEmpty
  · simp [pickAuthProto, he]
  · simp [pickAuthProto, he, h1, h2]

/-- A present but unrecognized privacy protocol name — upper-casing to neither
`"DES"` nor `"AES"` — leaves the no-priv fallback. -/
lemma pickPrivProto_unrecognized (p : String) (h1 : pyUpper p ≠ "DES")
    (h2 : pyUpper p ≠ "AES") :
    pickPrivProto (some p) = PrivProtocolChoice.noPriv := by
  by_cases he : p.isEmpty
  · simp [pickPrivProto, he]
  · simp [pickPrivProto, he, h1, h2]

/-- C10, per axis: for every v3 configuration, if its `auth_protocol` is
present but upper-cases to neither `"MD5"` nor `"SHA"`, `_get_auth_data`
still succeeds (raises nothing) and silently selects the no-auth USM protocol
on the auth axis — whatever the `priv_protocol` (valid, absent or invalid);
and symmetrically, if its `priv_protocol` is present but upper-cases to
neither `"DES"` nor `"AES"`, it succeeds with the no-priv USM protocol on the
privacy axis, whatever the `auth_protocol`. -/
theorem snmpv3_unknown_protocol_silently_falls_back (cfg : SNMPConfig)
    (hv : cfg.version = "3") :
    (∀ a : String, cfg.auth_protocol = some a → pyUpper a ≠ "MD5" → pyUpper a ≠ "SHA" →
        get_auth_data cfg
          = Except.ok
              (AuthData.usmUserData (usmUsername cfg.username) AuthProtocolChoice.noAuth
                (pickPrivProto cfg.priv_protocol)))
      ∧ (∀ p : String, cfg.priv_protocol = some p → pyUpper p ≠ "DES" → pyUpper p ≠ "AES" →
        get_auth_data cfg
          = Except.ok
              (AuthData.usmUserData (usmUsername cfg.username)
                (pickAuthProto cfg.auth_protocol) PrivProtocolChoice.noPriv)) := by
  have hbase : get_auth_data cfg
      = Except.ok
          (AuthData.usmUserData (usmUsername cfg.username) (pickAuthProto cfg.auth_protocol)
            (pickPrivProto cfg.priv_protocol)) := by
    have hv2 : cfg.version ≠ "2c" := by
      rw [hv]
      decide
    simp [get_auth_data, hv, hv2]
  constructor
  · intro a ha h1 h2
    rw [hbase, ha, pickAuthProto_unrecognized a h1 h2]
  · intro p hp h1 h2
    rw [hbase, hp, pickPrivProto_unrecognized p h1 h2]

/-- Witness for the C10 theorem at two mixed-axis configurations: a misspelled
`auth_protocol` `"SHA-256"` alongside the VALID `priv_protocol` `"AES"`
downgrades only the auth axis, and a misspelled `priv_protocol` `"AES256"`
alongside an absent `auth_protocol` downgrades only the privacy axis — each
without any error being raised. -/
theorem snmpv3_unknown_protocol_falls_back_witness :
    (({ version := "3", community := "public", username := some "admin",
          auth_protocol := some "SHA-256", priv_protocol := some "AES" } : SNMPConfig).version
        = "3")
      ∧ pyUpper "SHA-256" ≠ "MD5"
      ∧ pyUpper "SHA-256" ≠ "SHA"
      ∧ get_auth_data
            { version := "3", community := "public", username := some "admin",
              auth_protocol := some "SHA-256", priv_protocol := some "AES" }
          = Except.ok
              (AuthData.usmUserData (usmUsername (some "admin")) AuthProtocolChoice.noAuth
                (pickPrivProto (some "AES")))
      ∧ pyUpper "AES256" ≠ "DES"
      ∧ pyUpper "AES256" ≠ "AES"
      ∧ get_auth_data
            { version := "3", community := "public", username := none,
              auth_protocol := none, priv_protocol := some "AES256" }
          = Except.ok
              (AuthData.usmUserData (usmUsername none) (pickAuthProto none)
                PrivProtocolChoice.noPriv) :=
  ⟨rfl, by decide, by decide,
    (snmpv3_unknown_protocol_silently_falls_back
        { version := "3", community := "public", username := some "admin",
          auth_protocol := some "SHA-256", priv_protocol := some "AES" } rfl).1
      "SHA-256" rfl (by decide) (by decide),
    by decide, by decide,
    (snmpv3_unknown_protocol_silently_falls_back
        { version := "3", community := "public", username := none,
          auth_protocol := none, priv_protocol := some "AES256" } rfl).2
      "AES256" rfl (by decide) (by decide)⟩
